import Mathlib

/-!
# Verification of the constitution-engine decision-governance kernel

Shallow embedding, in Lean 4, of the parts of the `constitution_engine`
Python code base that the checked claims are about:

* `constitution_engine/invariants/spec_action_gating.py`
  (namespace `SpecActionGating`): the standalone action-class risk gate.
* `constitution_engine/invariants/rules.py` (namespace `Rules`):
  the v0.5.1 canonical gate and invariant rules.
* `constitution_engine/runtime/store.py` (namespace `RuntimeStore`):
  the artifact store with its partial-failure resolution contract.
* `constitution_engine/invariants/validate.py` (namespace `Validate`):
  the episode/recommendation validation engine.
* `constitution_engine/models/*.py` (namespace `Models`):
  the artifact dataclasses and their constructor-level invariants.

Modelling conventions:
* Python floats in `[0,1]` are modelled as `ℚ` (all thresholds in the
  source — 1/3, 2/3, 0.3, 0.4, 0.6, 0.7 — are exact in `ℚ`).
* Python exceptions are modelled with `Except`: a function that can raise
  returns `Except PyExc α` (or `Except String α` for constructor errors).
* Python `Optional[T]` is modelled as `Optional T` (an abbreviation for
  `Option`, kept distinct because two artifact classes are named `Option`).
* Python `set` values are modelled as `Finset` where only membership,
  subset and emptiness are used, and as `List` where iteration order in
  the source is semantically irrelevant to the checked claims.
* Message strings are reproduced by concatenation; where the source
  interpolates a float, the Lean `toString` of the rational stands in for
  Python float formatting (no checked claim inspects message text).
-/

/-- Python `Optional[T]`.  An abbreviation so that artifact structures can
use it inside namespaces that themselves declare a type called `Option`. -/
abbrev Optional (α : Type) := Option α

/-- Truthiness of a Python `Optional[str]`: `None` and `""` are falsy. -/
def optStrTruthy : Optional String → Bool
  | none => false
  | some s => s ≠ ""

/-- `x or y` on Python `Optional[str]` values (falsy left operand selects
the right operand). -/
def pyOrStr (a b : Optional String) : Optional String :=
  if optStrTruthy a then a else b

/-- Python `str.strip()`: drop whitespace from both ends (structural on
the character list, so that concrete evaluations kernel-reduce). -/
def pyStrip (s : String) : String :=
  ⟨((s.data.dropWhile Char.isWhitespace).reverse.dropWhile Char.isWhitespace).reverse⟩

/-- Python `str.lower()` (structural on the character list). -/
def pyLower (s : String) : String :=
  ⟨s.data.map Char.toLower⟩

deriving instance DecidableEq for Except

namespace SpecActionGating

/-- `ActionClass` enum of `spec_action_gating.py` (values PROBE/LIMITED/COMMIT). -/
inductive ActionClass where
  | PROBE
  | LIMITED
  | COMMIT
deriving DecidableEq, Repr, Fintype

/-- `GovernanceMode` enum of `spec_action_gating.py`. -/
inductive GovernanceMode where
  | ADVISORY_ONLY
  | EXTENDED_ALLOWED
deriving DecidableEq, Repr, Fintype

/-- `Level3` enum of `spec_action_gating.py` (LOW/MED/HIGH bands). -/
inductive Level3 where
  | LOW
  | MED
  | HIGH
deriving DecidableEq, Repr, Fintype

/-- `RiskPosture` enum of `spec_action_gating.py`. -/
inductive RiskPosture where
  | DEFAULT
  | CONSERVATIVE
deriving DecidableEq, Repr, Fintype

/-- The frozen dataclass `Option` of `spec_action_gating.py`: scalar risk
attributes plus the declared action class and dependency references.
(The Python `Tuple[str, ...]` of dependencies is a `List String`.) -/
structure Option where
  impact : ℚ
  reversibility : ℚ
  uncertainty : ℚ
  action_class : ActionClass
  dependencies : List String
deriving DecidableEq, Repr

/-- The frozen dataclass `Orientation` of `spec_action_gating.py`.
`override_scope` is a Python `Optional[Set[str]]`; only emptiness and
superset tests are applied to it, so it is a `Finset String` here. -/
structure Orientation where
  governance_mode : GovernanceMode := GovernanceMode.ADVISORY_ONLY
  risk_posture : RiskPosture := RiskPosture.DEFAULT
  override_scope : Optional (Finset String) := none
  override_rationale : Optional String := none

/-- `_clamp01` of `spec_action_gating.py`. -/
def _clamp01 (x : ℚ) : ℚ :=
  if x < 0 then 0 else if x > 1 then 1 else x

/-- `band_scalar` of `spec_action_gating.py`: `[0,1/3) ↦ LOW`,
`[1/3,2/3) ↦ MED`, `[2/3,1] ↦ HIGH`. -/
def band_scalar (x : ℚ) : Level3 :=
  if x < mkRat 1 3 then Level3.LOW
  else if x < mkRat 2 3 then Level3.MED
  else Level3.HIGH

/-- `impact_level` of `spec_action_gating.py`. -/
def impact_level (impact : ℚ) : Level3 :=
  band_scalar (_clamp01 impact)

/-- `uncertainty_level` of `spec_action_gating.py`. -/
def uncertainty_level (unc : ℚ) : Level3 :=
  band_scalar (_clamp01 unc)

/-- `reversibility_level` of `spec_action_gating.py` (LOW = hard to undo). -/
def reversibility_level (rev : ℚ) : Level3 :=
  band_scalar (_clamp01 rev)

/-- `derived_riskiness` of `spec_action_gating.py`:
(HIGH impact, LOW reversibility) ↦ HIGH; (LOW impact, HIGH reversibility)
↦ LOW; every other combination ↦ MED. -/
def derived_riskiness (imp rev : Level3) : Level3 :=
  if imp = Level3.HIGH ∧ rev = Level3.LOW then Level3.HIGH
  else if imp = Level3.LOW ∧ rev = Level3.HIGH then Level3.LOW
  else Level3.MED

/-- `allowed_action_classes` of `spec_action_gating.py`.  Baseline:
risk LOW ↦ all three; risk MED ↦ {PROBE} when uncertainty HIGH, otherwise
{PROBE, LIMITED}; risk HIGH ↦ {PROBE} unless uncertainty LOW, in which
case {PROBE, LIMITED} (COMMIT is deliberately not added — see the source
comment).  A CONSERVATIVE posture then discards COMMIT. -/
def allowed_action_classes (risk : Level3) (unc : Level3)
    (posture : RiskPosture := RiskPosture.DEFAULT) : Finset ActionClass :=
  let allowed : Finset ActionClass :=
    if risk = Level3.LOW then
      {ActionClass.PROBE, ActionClass.LIMITED, ActionClass.COMMIT}
    else if risk = Level3.MED then
      (if unc = Level3.HIGH then {ActionClass.PROBE}
       else {ActionClass.PROBE, ActionClass.LIMITED})
    else
      (if unc ≠ Level3.LOW then {ActionClass.PROBE}
       else {ActionClass.PROBE, ActionClass.LIMITED})
  if posture = RiskPosture.CONSERVATIVE ∧ ActionClass.COMMIT ∈ allowed then
    allowed.erase ActionClass.COMMIT
  else
    allowed

/-- `override_is_valid` of `spec_action_gating.py`: structural legitimacy
of an override request, returning `(bool, reason)`. -/
def override_is_valid (orientation : Orientation)
    (scope_used : Optional (Finset String)) : Bool × String :=
  if orientation.governance_mode ≠ GovernanceMode.EXTENDED_ALLOWED then
    (false, "override not permitted: governance_mode != EXTENDED_ALLOWED")
  else if orientation.override_scope = none ∨ orientation.override_scope = some ∅ then
    (false, "override invalid: missing override_scope")
  else if pyStrip (orientation.override_rationale.getD "") = "" then
    (false, "override invalid: missing override_rationale")
  else if scope_used = none ∨ scope_used = some ∅ then
    (false, "override invalid: missing override_scope_used")
  else if ¬ (scope_used.getD ∅ ⊆ orientation.override_scope.getD ∅) then
    (false, "override invalid: override_scope_used is not a subset of Orientation.override_scope")
  else
    (true, "override valid")

/-- Structured stand-in for the reason strings built by
`evaluate_option_legality` (their interpolated content carries no
behaviour; the constructor records which branch produced the reason and
the data the source interpolates). -/
inductive Reason where
  | invalid_dependencies
  | allowed_by_gate (risk : Level3) (unc : Level3) (allowed : Finset ActionClass)
  | allowed_only_by_override (declared : ActionClass) (msg : String)
  | disallowed (declared : ActionClass) (msg : String)
deriving DecidableEq

/-- `evaluate_option_legality` of `spec_action_gating.py`: returns
`(is_allowed, requires_override, reason)`.  Empty dependencies are a
structural defect (`(False, False, …)`); otherwise the gate is consulted
and, when violated, the override path. -/
def evaluate_option_legality (option : Option) (orientation : Orientation)
    (override_scope_used : Optional (Finset String) := none) :
    Bool × Bool × Reason :=
  if option.dependencies = [] then
    (false, false, Reason.invalid_dependencies)
  else
    let imp := impact_level option.impact
    let rev := reversibility_level option.reversibility
    let unc := uncertainty_level option.uncertainty
    let risk := derived_riskiness imp rev
    let allowed := allowed_action_classes risk unc orientation.risk_posture
    if option.action_class ∈ allowed then
      (true, false, Reason.allowed_by_gate risk unc allowed)
    else
      let v := override_is_valid orientation override_scope_used
      if v.1 then
        (true, true, Reason.allowed_only_by_override option.action_class v.2)
      else
        (false, true, Reason.disallowed option.action_class v.2)

end SpecActionGating

namespace Models

/-- `InfoType` enum of `models/types.py`. -/
inductive InfoType where
  | FACT | MEASUREMENT | EVENT | TESTIMONY
  | CLAIM | EXPLANATION | HYPOTHESIS | FRAME
  | VALUE | PREFERENCE | CONSTRAINT
  | FORECAST | SCENARIO
deriving DecidableEq, Repr

/-- `Uncertainty` dataclass of `models/types.py` (kind/description are
irrelevant to the checked claims' arithmetic but kept for shape). -/
structure Uncertainty where
  description : String
  level : ℚ
deriving DecidableEq, Repr

/-- `Impact` dataclass of `models/types.py`. -/
structure Impact where
  value : ℚ
deriving DecidableEq, Repr

/-- `Reversibility` dataclass of `models/types.py`. -/
structure Reversibility where
  value : ℚ
deriving DecidableEq, Repr

/-- `OptionKind` enum of `models/option.py`. -/
inductive OptionKind where
  | EXECUTE
  | HEDGE
  | INFO_GATHERING
deriving DecidableEq, Repr

/-- The `Option` artifact dataclass of `models/option.py` (the fields the
invariant rules read; `created_at`, `action_payload` and `meta` carry no
governance behaviour and are omitted).  `action_class` is the v0.5.1
bridge field: an optional raw string. -/
structure Option where
  option_id : String
  kind : OptionKind := OptionKind.EXECUTE
  title : String := ""
  description : String := ""
  action_class : Optional String := none
  orientation_id : Optional String := none
  observation_ids : List String := []
  interpretation_ids : List String := []
  evidence_ids : List String := []
  reversibility : Reversibility := ⟨mkRat 1 2⟩
  impact : Impact := ⟨mkRat 1 2⟩
  uncertainties : List Uncertainty := []
deriving DecidableEq, Repr

/-- `Option.has_upstream_references` of `models/option.py`. -/
def Option.has_upstream_references (o : Option) : Bool :=
  o.observation_ids ≠ [] ∨ o.interpretation_ids ≠ [] ∨ o.evidence_ids ≠ []

/-- `RankedOption` dataclass of `models/recommendation.py` (rank is a
Python `int`, hence `ℤ`; the `__post_init__` bound `rank ≥ 1` is a
constructor check orthogonal to the rank-contiguity claim). -/
structure RankedOption where
  option_id : String
  rank : ℤ
  score : ℚ
  rationale : String := ""
deriving DecidableEq, Repr

/-- `Recommendation` dataclass of `models/recommendation.py` (fields read
by the invariant rules). -/
structure Recommendation where
  recommendation_id : String
  orientation_id : String := ""
  ranked_options : List RankedOption := []
  evidence_ids : List String := []
  observation_ids : List String := []
  interpretation_ids : List String := []
  model_state_ids : List String := []
  override_used : Bool := false
  override_scope_used : List String := []
deriving DecidableEq, Repr

/-- `_validate_contiguous_ranks` of `models/recommendation.py`: with a
non-empty rank list, `sorted(ranks)` must equal `list(range(1, N+1))`
(and, redundantly after that, ranks must be pairwise distinct); a failed
check raises `ValueError`. -/
def _validate_contiguous_ranks (ranked_options : List RankedOption) :
    Except String Unit :=
  let ranks := ranked_options.map (·.rank)
  if ranks = [] then Except.ok ()
  else if ranks.insertionSort (· ≤ ·) ≠ (List.range' 1 ranks.length).map (Int.ofNat ·) then
    Except.error "RankedOption.rank must be contiguous starting at 1"
  else if ranks.dedup.length ≠ ranks.length then
    Except.error "RankedOption.rank values must be unique"
  else Except.ok ()

/-- Construction of a `Recommendation`, i.e. the dataclass constructor
together with `Recommendation.__post_init__` of `models/recommendation.py`:
`orientation_id` must be non-empty and the ranked options must pass
`_validate_contiguous_ranks`; a violation raises `ValueError`. -/
def mkRecommendation (rec : Recommendation) : Except String Recommendation :=
  if rec.orientation_id = "" then
    Except.error "Recommendation.orientation_id must be set (non-empty)"
  else
    match _validate_contiguous_ranks rec.ranked_options with
    | Except.error m => Except.error m
    | Except.ok _ => Except.ok rec

/-- `Recommendation.add_ranked_options` of `models/recommendation.py`:
appends ranked options and re-validates rank contiguity. -/
def Recommendation.add_ranked_options (rec : Recommendation)
    (new : List RankedOption) : Except String Recommendation :=
  let new_ros := rec.ranked_options ++ new
  match _validate_contiguous_ranks new_ros with
  | Except.error m => Except.error m
  | Except.ok _ => Except.ok { rec with ranked_options := new_ros }

/-- `Recommendation.top_option_id` of `models/recommendation.py`: the
option id of the minimum-rank ranked option (Python `min(..., key=rank)`
keeps the first minimum). -/
def Recommendation.top_option_id (rec : Recommendation) : Optional String :=
  match rec.ranked_options with
  | [] => none
  | ro :: ros =>
    some (ros.foldl (fun best next => if next.rank < best.rank then next else best) ro).option_id

/-- `ChoiceRecord` dataclass of `models/choice.py` (its `__post_init__`
requires the three references non-empty; construction is not at issue in
the checked claims, so the record is carried as data). -/
structure ChoiceRecord where
  choice_id : String
  episode_id : String
  recommendation_id : String
  option_id : String
  rationale : String := ""
  used_override : Bool := false
deriving DecidableEq, Repr

/-- `Outcome` dataclass of `models/outcome.py` (fields read by the
validators). -/
structure Outcome where
  outcome_id : String
  recommendation_id : Optional String := none
  chosen_option_id : Optional String := none
  description : String := ""
deriving DecidableEq, Repr

/-- One entry of `ReviewRecord.override_audit["overrides"]`:
in the source a loosely-typed `dict` (a non-dict list element is the
`nondict` constructor; an absent/ill-typed key is `none`). -/
inductive OverrideAuditEntry where
  | dict (recommendation_id : Optional String)
         (override_scope_used : Optional (List String))
         (rationale : Optional String)
  | nondict
deriving DecidableEq, Repr

/-- `ReviewRecord.override_audit` of `models/review.py`: a loosely-typed
mapping; `overrides = none` models the "missing key or not a list" case
tested by `isinstance(overrides, list)`. -/
structure OverrideAudit where
  overrides : Optional (List OverrideAuditEntry) := none
deriving DecidableEq, Repr

/-- `ReviewRecord` dataclass of `models/review.py` (fields read by the
validators). -/
structure ReviewRecord where
  review_id : String
  episode_id : Optional String := none
  outcome_summary : String := ""
  calibration_notes : String := ""
  override_audit : OverrideAudit := {}
deriving DecidableEq, Repr

/-- `CalibrationNote` dataclass of `models/calibration.py` (fields read by
the validators). -/
structure CalibrationNote where
  calibration_id : String
  episode_id : String := ""
  review_id : String := ""
  outcome_ids : List String := []
  summary : String := ""
deriving DecidableEq, Repr

/-- The `InfoType` values of `models/observation.py`'s
`_OBSERVATIONAL_TYPES` (same set as the allow-set in
`rules.require_observations_are_observational`). -/
def observationalTypes : List InfoType :=
  [InfoType.FACT, InfoType.MEASUREMENT, InfoType.EVENT, InfoType.TESTIMONY]

/-- `Observation` dataclass of `models/observation.py` (fields read by the
validators; `__post_init__` restricts `info_type` to the observational
kinds, a constructor check orthogonal to the claims). -/
structure Observation where
  observation_id : String
  info_type : InfoType := InfoType.FACT
  statement : String := ""
  raw_input_ids : List String := []
  evidence_ids : List String := []
  uncertainties : List Uncertainty := []
deriving DecidableEq, Repr

/-- `DecisionEpisode` dataclass of `models/episode.py` (ids-only binder;
timestamps are opaque `Nat` ticks and `meta` keeps only boolean entries,
which is all `validate._episode_acted`'s legacy fallback reads). -/
structure DecisionEpisode where
  episode_id : String
  raw_input_ids : List String := []
  evidence_ids : List String := []
  observation_ids : List String := []
  interpretation_ids : List String := []
  orientation_ids : List String := []
  option_ids : List String := []
  recommendation_ids : List String := []
  choice_ids : List String := []
  outcome_ids : List String := []
  review_ids : List String := []
  calibration_ids : List String := []
  acted : Bool := false
  acted_at : Optional Nat := none
  chosen_option_id : Optional String := none
  meta : List (String × Bool) := []
deriving DecidableEq, Repr

/-- `DecisionEpisode.latest_review_id` of `models/episode.py`. -/
def DecisionEpisode.latest_review_id (ep : DecisionEpisode) : Optional String :=
  ep.review_ids.getLast?

/-- `DecisionEpisode.mark_acted` of `models/episode.py`.  `now` stands for
`now_utc()` (datetimes are opaque ticks).  A `Some ""` chosen id raises;
a *different* chosen id raises only when the episode is already acted
with a truthy `chosen_option_id`; otherwise a new episode value is
returned with `acted=True` and Python-`or` fallbacks applied. -/
def DecisionEpisode.mark_acted (ep : DecisionEpisode)
    (chosen_option_id : Optional String := none)
    (acted_at : Optional Nat := none) (now : Nat := 0) :
    Except String DecisionEpisode :=
  if chosen_option_id = some "" then
    Except.error "chosen_option_id must be non-empty when provided"
  else if optStrTruthy chosen_option_id ∧ ep.acted
          ∧ optStrTruthy ep.chosen_option_id
          ∧ ep.chosen_option_id ≠ chosen_option_id then
    Except.error ("Episode already acted on " ++ (ep.chosen_option_id.getD "")
      ++ "; cannot change to " ++ (chosen_option_id.getD "") ++ ".")
  else
    Except.ok { ep with
      acted := true
      chosen_option_id := pyOrStr chosen_option_id ep.chosen_option_id
      acted_at := some ((acted_at.getD (ep.acted_at.getD now))) }

end Models

namespace Rules

open Models

/-- `InvariantViolation` dataclass of `invariants/rules.py`. -/
structure InvariantViolation where
  rule : String
  message : String
deriving DecidableEq, Repr

/-- `UncertaintyLevel` enum of `invariants/rules.py` (bridge, with UNKNOWN). -/
inductive UncertaintyLevel where
  | LOW | MED | HIGH | UNKNOWN
deriving DecidableEq, Repr, Fintype

/-- `ImpactLevel` enum of `invariants/rules.py`. -/
inductive ImpactLevel where
  | LOW | MED | HIGH
deriving DecidableEq, Repr, Fintype

/-- `ReversibilityLevel` enum of `invariants/rules.py` (LOW = hard to reverse). -/
inductive ReversibilityLevel where
  | HIGH | MED | LOW
deriving DecidableEq, Repr, Fintype

/-- `ActionClass` enum of `invariants/rules.py` (lower-case string values). -/
inductive ActionClass where
  | PROBE | LIMITED | COMMIT
deriving DecidableEq, Repr, Fintype

/-- The string value of a `rules.ActionClass` member (`a.value` in Python). -/
def ActionClass.value : ActionClass → String
  | .PROBE => "probe"
  | .LIMITED => "limited"
  | .COMMIT => "commit"

/-- `Riskiness` enum of `invariants/rules.py`. -/
inductive Riskiness where
  | LOW | MED | HIGH
deriving DecidableEq, Repr, Fintype

/-- `require_observations_are_observational` of `invariants/rules.py`. -/
def require_observations_are_observational (observations : List Observation) :
    List InvariantViolation :=
  observations.filterMap fun obs =>
    if obs.info_type ∈ observationalTypes then none
    else some ⟨"observation_type",
      "Observation " ++ obs.observation_id ++ " has non-observational type"⟩

/-- `require_recommendation_has_orientation` of `invariants/rules.py`. -/
def require_recommendation_has_orientation (rec : Recommendation) :
    List InvariantViolation :=
  if rec.orientation_id = "" then
    [⟨"recommendation_orientation", "Recommendation missing orientation_id"⟩]
  else []

/-- `require_recommendation_has_ranked_options` of `invariants/rules.py`. -/
def require_recommendation_has_ranked_options (rec : Recommendation) :
    List InvariantViolation :=
  if rec.ranked_options = [] then
    [⟨"recommendation_ranked_options", "Recommendation has no ranked_options"⟩]
  else []

/-- `_max_uncertainty_float` of `invariants/rules.py`: `None` when the
option declares no uncertainties, otherwise the maximum level. -/
def _max_uncertainty_float (opt : Models.Option) : Optional ℚ :=
  match opt.uncertainties.map (·.level) with
  | [] => none
  | l :: ls => some (ls.foldl max l)

/-- `bucket_uncertainty_level` of `invariants/rules.py`
(defaults `high=0.7`, `med=0.3`). -/
def bucket_uncertainty_level (opt : Models.Option)
    (high : ℚ := mkRat 7 10) (med : ℚ := mkRat 3 10) : UncertaintyLevel :=
  match _max_uncertainty_float opt with
  | none => UncertaintyLevel.UNKNOWN
  | some m =>
    if m ≥ high then UncertaintyLevel.HIGH
    else if m ≥ med then UncertaintyLevel.MED
    else UncertaintyLevel.LOW

/-- `bucket_impact_level` of `invariants/rules.py` (defaults `high=0.7`,
`med=0.4`; the `None`-impact branch is unreachable for real `Option`
dataclasses, whose `impact` always carries a value). -/
def bucket_impact_level (opt : Models.Option)
    (high : ℚ := mkRat 7 10) (med : ℚ := mkRat 4 10) : ImpactLevel :=
  let v := opt.impact.value
  if v ≥ high then ImpactLevel.HIGH
  else if v ≥ med then ImpactLevel.MED
  else ImpactLevel.LOW

/-- `bucket_reversibility_level` of `invariants/rules.py` (defaults
`low=0.3`, `med=0.6`; the `None` branch is likewise unreachable). -/
def bucket_reversibility_level (opt : Models.Option)
    (low : ℚ := mkRat 3 10) (med : ℚ := mkRat 6 10) : ReversibilityLevel :=
  let v := opt.reversibility.value
  if v ≤ low then ReversibilityLevel.LOW
  else if v ≤ med then ReversibilityLevel.MED
  else ReversibilityLevel.HIGH

/-- `compute_riskiness` of `invariants/rules.py`: the sequential
lookup-with-escalation table. -/
def compute_riskiness (impact : ImpactLevel) (reversibility : ReversibilityLevel) :
    Riskiness :=
  if impact = ImpactLevel.HIGH ∧ reversibility = ReversibilityLevel.LOW then
    Riskiness.HIGH
  else if impact = ImpactLevel.LOW ∧ reversibility = ReversibilityLevel.HIGH then
    Riskiness.LOW
  else if impact = ImpactLevel.HIGH ∧
      (reversibility = ReversibilityLevel.MED ∨ reversibility = ReversibilityLevel.LOW) then
    Riskiness.HIGH
  else if reversibility = ReversibilityLevel.LOW ∧
      (impact = ImpactLevel.MED ∨ impact = ImpactLevel.HIGH) then
    Riskiness.HIGH
  else if impact = ImpactLevel.LOW ∧
      (reversibility = ReversibilityLevel.MED ∨ reversibility = ReversibilityLevel.HIGH) then
    Riskiness.LOW
  else
    Riskiness.MED

/-- `allowed_action_classes` of `invariants/rules.py` (the v0.5.1
canonical gate): risk HIGH needs uncertainty LOW for LIMITED/COMMIT, else
PROBE only; risk MED needs uncertainty ≤ MED for LIMITED, else PROBE
only; risk LOW allows everything. -/
def allowed_action_classes (impact : ImpactLevel)
    (reversibility : ReversibilityLevel) (uncertainty : UncertaintyLevel) :
    Finset ActionClass :=
  let risk := compute_riskiness impact reversibility
  if risk = Riskiness.HIGH then
    (if uncertainty ≠ UncertaintyLevel.LOW then {ActionClass.PROBE}
     else {ActionClass.PROBE, ActionClass.LIMITED, ActionClass.COMMIT})
  else if risk = Riskiness.MED then
    (if uncertainty = UncertaintyLevel.HIGH ∨ uncertainty = UncertaintyLevel.UNKNOWN then
       {ActionClass.PROBE}
     else {ActionClass.PROBE, ActionClass.LIMITED})
  else
    {ActionClass.PROBE, ActionClass.LIMITED, ActionClass.COMMIT}

/-- `require_action_class_declared` of `invariants/rules.py`
(INV-ACT-001): `None` or an unrecognised string fails; the model's
`action_class` is the raw-string bridge field of `models/option.py`, so
the `isinstance(ac, ActionClass)` arm of the source does not arise. -/
def require_action_class_declared (opt : Models.Option) :
    List InvariantViolation :=
  match opt.action_class with
  | none =>
    [⟨"INV-ACT-001", "Option " ++ opt.option_id
      ++ " missing action_class (required: probe/limited/commit)."⟩]
  | some ac =>
    if pyLower (pyStrip ac) = "probe" ∨ pyLower (pyStrip ac) = "limited"
        ∨ pyLower (pyStrip ac) = "commit" then []
    else
      [⟨"INV-ACT-001", "Option " ++ opt.option_id ++ " has invalid action_class="
        ++ ac ++ ". Must be one of: 'probe', 'limited', 'commit'."⟩]

/-- `_coerce_action_class` of `invariants/rules.py`. -/
def _coerce_action_class (opt : Models.Option) : Optional ActionClass :=
  match opt.action_class with
  | none => none
  | some ac =>
    let s := pyLower (pyStrip ac)
    if s = "probe" then some ActionClass.PROBE
    else if s = "limited" then some ActionClass.LIMITED
    else if s = "commit" then some ActionClass.COMMIT
    else none

/-- Per-ranked-option body of the loop in
`require_proportionate_action_v051` of `invariants/rules.py`. -/
def _v051_option_violations (gate_bypass : Bool)
    (options_by_id : List (String × Models.Option)) (ro : RankedOption) :
    List InvariantViolation :=
  match options_by_id.lookup ro.option_id with
  | none => []
  | some opt =>
    if opt.kind ≠ OptionKind.EXECUTE then []
    else
      require_action_class_declared opt ++
      match _coerce_action_class opt with
      | none => []
      | some ac =>
        let impact := bucket_impact_level opt
        let reversibility := bucket_reversibility_level opt
        let uncertainty := bucket_uncertainty_level opt
        let allowed := allowed_action_classes impact reversibility uncertainty
        if ac ∉ allowed then
          (if gate_bypass then []
           else [⟨"INV-ACT-002", "Option " ++ opt.option_id ++ " action_class="
             ++ ac.value ++ " not allowed by gate."⟩])
        else []

/-- `require_proportionate_action_v051` of `invariants/rules.py`:
the deterministic EXECUTE gate, with the thin-slice bypass
(`override_used=True` and `"ALLOW_GATE_BYPASS"` in the recommendation's
own `override_scope_used` suppresses INV-ACT-002). -/
def require_proportionate_action_v051 (rec : Recommendation)
    (options_by_id : List (String × Models.Option)) : List InvariantViolation :=
  let gate_bypass := rec.override_used ∧ "ALLOW_GATE_BYPASS" ∈ rec.override_scope_used
  (rec.ranked_options.map (_v051_option_violations gate_bypass options_by_id)).flatten

/-- `max_unc` helper of `require_proportionate_action_legacy_numeric`. -/
def _legacy_max_unc (opt : Models.Option) : ℚ :=
  match opt.uncertainties.map (·.level) with
  | [] => 0
  | l :: ls => ls.foldl max l

/-- `require_proportionate_action_legacy_numeric` of `invariants/rules.py`
(pre-v0.5 heuristic; retained behind the `use_legacy_numeric_gate` flag). -/
def require_proportionate_action_legacy_numeric (rec : Recommendation)
    (options_by_id : List (String × Models.Option))
    (high_uncertainty : ℚ := mkRat 7 10) (low_reversibility : ℚ := mkRat 3 10)
    (nontrivial_impact : ℚ := mkRat 4 10) : List InvariantViolation :=
  let ranked_option_ids := rec.ranked_options.map (·.option_id)
  let ranked_options := ranked_option_ids.filterMap options_by_id.lookup
  let missing := ranked_option_ids.filter (fun oid => options_by_id.lookup oid = none)
  if missing ≠ [] then
    [⟨"proportionate_action_missing_options",
      "Recommendation references missing Option IDs: " ++ String.intercalate ", " missing⟩]
  else
    let risky_execute_options := ranked_options.filter fun opt =>
      opt.kind = OptionKind.EXECUTE ∧ _legacy_max_unc opt ≥ high_uncertainty
        ∧ opt.reversibility.value ≤ low_reversibility
        ∧ opt.impact.value ≥ nontrivial_impact
    if risky_execute_options = [] then []
    else if ranked_options.any fun opt =>
        opt.kind = OptionKind.HEDGE ∨ opt.kind = OptionKind.INFO_GATHERING then []
    else
      [⟨"proportionate_action_legacy_numeric",
        "Risky EXECUTE option present (high uncertainty, low reversibility, "
        ++ "non-trivial impact), but no HEDGE or INFO_GATHERING option included."⟩]

/-- `require_proportionate_action` of `invariants/rules.py`: the stable
entrypoint used by `validate.py` (the legacy gate only behind its flag). -/
def require_proportionate_action (rec : Recommendation)
    (options_by_id : List (String × Models.Option))
    (use_legacy_numeric_gate : Bool := false) : List InvariantViolation :=
  require_proportionate_action_v051 rec options_by_id ++
    (if use_legacy_numeric_gate then
       require_proportionate_action_legacy_numeric rec options_by_id
     else [])

/-- `require_review_exists_if_override_used` of `invariants/rules.py`
(INV-REV-001). -/
def require_review_exists_if_override_used (episode_id : String)
    (recommendations : List Recommendation) (review_ids : List String) :
    List InvariantViolation :=
  let used := recommendations.filter (·.override_used)
  if used = [] then []
  else if review_ids = [] then
    [⟨"INV-REV-001", "DecisionEpisode " ++ episode_id
      ++ " contains override_used=true recommendations but has no review_ids "
      ++ "(override requires review)."⟩]
  else []

/-- The `by_rec_id` index built by `require_review_audits_overrides`:
later dict entries overwrite earlier ones, so the index is consed in
iteration order and looked up front-first (first hit = last inserted). -/
def _audit_index (entries : List OverrideAuditEntry) :
    List (String × OverrideAuditEntry) :=
  entries.foldl (fun m e =>
    match e with
    | OverrideAuditEntry.dict (some rid) _ _ => if rid ≠ "" then (rid, e) :: m else m
    | _ => m) []

/-- `require_review_audits_overrides` of `invariants/rules.py`
(INV-REV-002): the latest review must audit every overridden
recommendation with a non-empty scope list and rationale. -/
def require_review_audits_overrides (episode_id : String)
    (recommendations : List Recommendation) (review : ReviewRecord) :
    List InvariantViolation :=
  let overridden := recommendations.filter (·.override_used)
  if overridden = [] then []
  else
    match review.override_audit.overrides with
    | none =>
      [⟨"INV-REV-002", "DecisionEpisode " ++ episode_id
        ++ " override_used=true but ReviewRecord " ++ review.review_id
        ++ " override_audit overrides is missing or not a list."⟩]
    | some entries =>
      let by_rec_id := _audit_index entries
      overridden.filterMap fun rec =>
        match by_rec_id.lookup rec.recommendation_id with
        | none =>
          some ⟨"INV-REV-002", "DecisionEpisode " ++ episode_id
            ++ " override_used=true for Recommendation " ++ rec.recommendation_id
            ++ " but ReviewRecord " ++ review.review_id
            ++ " has no matching override audit entry."⟩
        | some (OverrideAuditEntry.dict _ scope_used rationale) =>
          let scope_ok : Bool := match scope_used with
            | some l => l.length > 0
            | none => false
          let rationale_ok : Bool := match rationale with
            | some s => pyStrip s ≠ ""
            | none => false
          if ¬ scope_ok ∨ ¬ rationale_ok then
            some ⟨"INV-REV-002", "ReviewRecord " ++ review.review_id
              ++ " override audit entry for Recommendation " ++ rec.recommendation_id
              ++ " is missing required fields."⟩
          else none
        | some OverrideAuditEntry.nondict => none

/-- Modelled from the spec: `require_choice_exists_if_episode_acted` is
imported by `invariants/validate.py` from `invariants/rules.py` but its
definition is absent from the source tree.  Per the spec ("acted ⇒
choice": if `episode.acted` is true, `choice_ids` must be non-empty, with
stable code INV-CHO-001) and its call signature in `validate.py`. -/
def require_choice_exists_if_episode_acted (episode_id : String)
    (acted : Bool) (choice_ids : List String) : List InvariantViolation :=
  if acted ∧ choice_ids = [] then
    [⟨"INV-CHO-001", "DecisionEpisode " ++ episode_id
      ++ " is marked acted=true but has no choice_ids (acting requires a Choice)."⟩]
  else []

/-- Modelled from the spec: `validate_choices` is imported by
`invariants/validate.py` from `invariants/rules.py` but its definition is
absent from the source tree.  Per the spec ("every Choice must reference
an existing Recommendation and Option, and (unless the Choice declares
`used_override=true`) the chosen option must appear among that
Recommendation's ranked options") with the stable codes the test suite
asserts (INV-CHO-002 for a dangling reference, INV-CHO-003 for an
unranked chosen option without override). -/
def validate_choices (choices : List ChoiceRecord)
    (recommendations_by_id : List (String × Recommendation))
    (options_by_id : List (String × Models.Option)) : List InvariantViolation :=
  (choices.map fun ch =>
    (match recommendations_by_id.lookup ch.recommendation_id with
     | none =>
       [InvariantViolation.mk "INV-CHO-002" ("Choice " ++ ch.choice_id
         ++ " references missing Recommendation " ++ ch.recommendation_id ++ ".")]
     | some rec =>
       if ¬ ch.used_override
           ∧ ch.option_id ∉ rec.ranked_options.map (·.option_id) then
         [InvariantViolation.mk "INV-CHO-003" ("Choice " ++ ch.choice_id
           ++ " option " ++ ch.option_id ++ " is not ranked by Recommendation "
           ++ ch.recommendation_id ++ " and used_override is not set.")]
       else []) ++
    (match options_by_id.lookup ch.option_id with
     | none =>
       [InvariantViolation.mk "INV-CHO-002" ("Choice " ++ ch.choice_id
         ++ " references missing Option " ++ ch.option_id ++ ".")]
     | some _ => [])).flatten

end Rules

namespace RuntimeStore

/-- `ResolveError` dataclass of `runtime/store.py`.  NOTE: in the source
this is a plain frozen dataclass, *not* an `Exception` subclass. -/
structure ResolveError where
  artifact_type : String
  artifact_id : String
  message : String := "not found"
deriving DecidableEq, Repr

/-- Python exceptions that the embedded store/validator code can raise. -/
inductive PyExc where
  | keyError (key : String)
  | typeError (msg : String)
deriving DecidableEq, Repr

/-- The message CPython produces when an `except` clause names a class
that does not inherit from `BaseException`. -/
def catchNonExceptionClassMsg : String :=
  "catching classes that do not inherit from BaseException is not allowed"

/-- Models `try: ... except ResolveError as err: <handler>` around a
computation that can only raise `KeyError`.  Because `ResolveError` in
`runtime/store.py` is a plain dataclass (not a `BaseException` subclass),
the clause can never catch anything: when an exception reaches it,
CPython itself raises `TypeError`.  The handler body is therefore dead
code and the whole construct turns any raised exception into that
`TypeError`. -/
def tryExceptResolveError {α : Type} (x : Except PyExc α) : Except PyExc α :=
  match x with
  | Except.ok a => Except.ok a
  | Except.error _ => Except.error (PyExc.typeError catchNonExceptionClassMsg)

/-- `InMemoryArtifactStore.resolve_many` of `runtime/store.py`
(identical logic in `runtime/in_memory_store.py`): iterate the ids in
order, appending found artifacts and a `ResolveError(cls.__name__, id)`
per miss; never raises.  `get` is the store's per-class `get`. -/
def resolve_many {α : Type} (typeName : String) (get : String → Optional α) :
    List String → List α × List ResolveError
  | [] => ([], [])
  | obj_id :: rest =>
    let r := resolve_many typeName get rest
    match get obj_id with
    | none => (r.1, ResolveError.mk typeName obj_id "not found" :: r.2)
    | some a => (a :: r.1, r.2)

/-- `InMemoryArtifactStore` of `runtime/store.py`, with its
`(type_key, id)`-keyed map split into one association list per artifact
class (the classes `validate.py` touches).  Python's `get` is a dict
lookup; duplicate keys cannot occur inside one partition, so
`List.lookup` is exact. -/
structure Store where
  episodes : List (String × Models.DecisionEpisode) := []
  observations : List (String × Models.Observation) := []
  options : List (String × Models.Option) := []
  recommendations : List (String × Models.Recommendation) := []
  choices : List (String × Models.ChoiceRecord) := []
  outcomes : List (String × Models.Outcome) := []
  reviews : List (String × Models.ReviewRecord) := []
  calibrations : List (String × Models.CalibrationNote) := []

/-- The empty store (a freshly constructed `InMemoryArtifactStore`). -/
def Store.empty : Store := {}

/-- `store.get(DecisionEpisode, id)`. -/
def Store.get_episode (store : Store) (obj_id : String) :
    Optional Models.DecisionEpisode :=
  store.episodes.lookup obj_id

/-- `store.get(Recommendation, id)`. -/
def Store.get_recommendation (store : Store) (obj_id : String) :
    Optional Models.Recommendation :=
  store.recommendations.lookup obj_id

/-- `store.must_get(DecisionEpisode, id)` of `runtime/store.py`:
raises `KeyError(obj_id)` when absent. -/
def Store.must_get_episode (store : Store) (obj_id : String) :
    Except PyExc Models.DecisionEpisode :=
  match store.get_episode obj_id with
  | none => Except.error (PyExc.keyError obj_id)
  | some ep => Except.ok ep

/-- `store.must_get(Recommendation, id)` of `runtime/store.py`. -/
def Store.must_get_recommendation (store : Store) (obj_id : String) :
    Except PyExc Models.Recommendation :=
  match store.get_recommendation obj_id with
  | none => Except.error (PyExc.keyError obj_id)
  | some rec => Except.ok rec

end RuntimeStore

namespace Validate

open Models Rules RuntimeStore

/-- `ValidationReport` dataclass of `invariants/validate.py`. -/
structure ValidationReport where
  subject : String
  violations : List InvariantViolation
  resolve_errors : List ResolveError
deriving DecidableEq, Repr

/-- `ValidationReport.ok` of `invariants/validate.py`. -/
def ValidationReport.ok (r : ValidationReport) : Bool :=
  r.violations.isEmpty && r.resolve_errors.isEmpty

/-- `_as_missing_violations` of `invariants/validate.py`. -/
def _as_missing_violations (errors : List ResolveError)
    (context : Optional String := none) : List InvariantViolation :=
  let prefixStr := match context with
    | some c => c ++ ": "
    | none => ""
  errors.map fun e =>
    ⟨"missing_reference", prefixStr ++ e.artifact_type ++ " missing: " ++ e.artifact_id⟩

/-- `_episode_acted` of `invariants/validate.py`: the explicit `acted`
field, with the legacy `meta["acted"]` fallback. -/
def _episode_acted (ep : DecisionEpisode) : Bool :=
  ep.acted || (ep.meta.lookup "acted").getD false

/-- `require_outcome_exists_if_episode_acted` of `invariants/validate.py`
(INV-OUT-001). -/
def require_outcome_exists_if_episode_acted (episode_id : String)
    (acted : Bool) (has_recommendation : Bool) (outcome_ids : List String) :
    List InvariantViolation :=
  if ¬ acted then []
  else if ¬ has_recommendation then []
  else if outcome_ids ≠ [] then []
  else
    [⟨"INV-OUT-001", "DecisionEpisode " ++ episode_id
      ++ " is marked acted=true and has recommendation_ids, but has no outcome_ids "
      ++ "(acting requires an Outcome)."⟩]

/-- `validate_outcomes` of `invariants/validate.py` (INV-OUT-002/003/004). -/
def validate_outcomes (outcomes : List Outcome)
    (recommendations_by_id : List (String × Recommendation))
    (options_by_id : List (String × Models.Option)) : List InvariantViolation :=
  (outcomes.map fun out =>
    let rid := out.recommendation_id
    let oid := out.chosen_option_id
    (if optStrTruthy rid ∧ recommendations_by_id.lookup (rid.getD "") = none then
      [InvariantViolation.mk "INV-OUT-002" ("Outcome " ++ out.outcome_id
        ++ " references missing Recommendation " ++ rid.getD "" ++ ".")]
     else []) ++
    (if optStrTruthy oid ∧ options_by_id.lookup (oid.getD "") = none then
      [InvariantViolation.mk "INV-OUT-003" ("Outcome " ++ out.outcome_id
        ++ " references missing Option " ++ oid.getD "" ++ ".")]
     else []) ++
    (match (if optStrTruthy rid ∧ optStrTruthy oid then
              recommendations_by_id.lookup (rid.getD "") else none) with
     | some rec =>
       let ranked_ids := rec.ranked_options.map (·.option_id)
       if ranked_ids ≠ [] ∧ oid.getD "" ∉ ranked_ids then
         [InvariantViolation.mk "INV-OUT-004" ("Outcome " ++ out.outcome_id
           ++ " chosen_option_id=" ++ oid.getD "" ++ " is not present in Recommendation "
           ++ rid.getD "" ++ " ranked_options.")]
       else []
     | none => [])).flatten

/-- `validate_calibrations` of `invariants/validate.py`
(INV-CAL-001/002/003/004). -/
def validate_calibrations (calibrations : List CalibrationNote)
    (episode : DecisionEpisode)
    (reviews_by_id : List (String × ReviewRecord))
    (outcomes_by_id : List (String × Outcome)) : List InvariantViolation :=
  (calibrations.map fun cal =>
    (if cal.episode_id ≠ "" ∧ cal.episode_id ≠ episode.episode_id then
      [InvariantViolation.mk "INV-CAL-001" ("CalibrationNote " ++ cal.calibration_id
        ++ " episode_id=" ++ cal.episode_id ++ " does not match DecisionEpisode "
        ++ episode.episode_id ++ ".")]
     else []) ++
    (if cal.review_id = "" then
      [InvariantViolation.mk "INV-CAL-002" ("CalibrationNote " ++ cal.calibration_id
        ++ " missing review_id.")]
     else if reviews_by_id.lookup cal.review_id = none then
      [InvariantViolation.mk "INV-CAL-003" ("CalibrationNote " ++ cal.calibration_id
        ++ " references missing ReviewRecord " ++ cal.review_id ++ ".")]
     else []) ++
    (cal.outcome_ids.filterMap fun oid =>
      if oid ≠ "" ∧ outcomes_by_id.lookup oid = none then
        some (InvariantViolation.mk "INV-CAL-004" ("CalibrationNote "
          ++ cal.calibration_id ++ " references missing Outcome " ++ oid ++ "."))
      else none)).flatten

/-- `validate_recommendation` of `invariants/validate.py` (the
store-based validator).  The `try/except ResolveError` around `must_get`
cannot catch the `KeyError` that `must_get` raises (see
`tryExceptResolveError`), so a missing recommendation propagates as an
exception instead of reaching the handler that would have built a report. -/
def validate_recommendation (store : Store) (rec_id : String) :
    Except PyExc ValidationReport :=
  match tryExceptResolveError (store.must_get_recommendation rec_id) with
  | Except.error e => Except.error e
  | Except.ok rec =>
    let v_basic := require_recommendation_has_orientation rec ++
      require_recommendation_has_ranked_options rec
    let opt_ids := rec.ranked_options.map (·.option_id)
    let resolved := resolve_many "Option" (fun i => store.options.lookup i) opt_ids
    let options_by_id := resolved.1.map (fun o => (o.option_id, o))
    let v_gate :=
      if resolved.2 ≠ [] then
        _as_missing_violations resolved.2 (some ("Recommendation:" ++ rec_id))
      else
        require_proportionate_action rec options_by_id
    Except.ok ⟨"Recommendation:" ++ rec_id, v_basic ++ v_gate, resolved.2⟩

/-- The `for rec_id in ep.recommendation_ids` loop of `validate_episode`:
resolves each recommendation (`must_get` inside the uncatchable
`try/except ResolveError`, so a single missing id aborts the whole
validation with the `TypeError`), then folds in that recommendation's
`validate_recommendation` report.  Returns the accumulated violations,
resolve errors, resolved recommendations (in order) and the id-keyed
index. -/
def _recommendations_loop (store : Store) :
    List String → Except PyExc (List InvariantViolation × List ResolveError
      × List Recommendation × List (String × Recommendation))
  | [] => Except.ok ([], [], [], [])
  | rec_id :: rest =>
    match tryExceptResolveError (store.must_get_recommendation rec_id) with
    | Except.error e => Except.error e
    | Except.ok rec =>
      match validate_recommendation store rec_id with
      | Except.error e => Except.error e
      | Except.ok rec_report =>
        match _recommendations_loop store rest with
        | Except.error e => Except.error e
        | Except.ok (vs, res, recs, by_id) =>
          Except.ok (rec_report.violations ++ vs, rec_report.resolve_errors ++ res,
            rec :: recs, (rec.recommendation_id, rec) :: by_id)

/-- `validate_episode` of `invariants/validate.py`, stage by stage in
source order.  As in the source, reference-resolution failures from
`resolve_many` are folded into the report, while the two `must_get`
sites (episode, recommendations) sit behind the uncatchable
`try/except ResolveError` and abort with an exception when the id is
absent. -/
def validate_episode (store : Store) (episode_id : String) :
    Except PyExc ValidationReport :=
  match tryExceptResolveError (store.must_get_episode episode_id) with
  | Except.error e => Except.error e
  | Except.ok ep =>
    let ctx := some ("DecisionEpisode:" ++ episode_id)
    -- observations
    let obsR := resolve_many "Observation" (fun i => store.observations.lookup i)
      ep.observation_ids
    let obsV := if obsR.2 ≠ [] then _as_missing_violations obsR.2 ctx
      else require_observations_are_observational obsR.1
    -- episode options
    let optR := resolve_many "Option" (fun i => store.options.lookup i) ep.option_ids
    let optV := if optR.2 ≠ [] then _as_missing_violations optR.2 ctx else []
    let opts_by_id := optR.1.map (fun o => (o.option_id, o))
    -- recommendations
    match _recommendations_loop store ep.recommendation_ids with
    | Except.error e => Except.error e
    | Except.ok (recV, recE, recs, recs_by_id) =>
      -- v0.5.2 choice invariants
      let acted := _episode_acted ep
      let choiceV := require_choice_exists_if_episode_acted ep.episode_id acted
        ep.choice_ids
      let chR := if ep.choice_ids ≠ [] then
          resolve_many "ChoiceRecord" (fun i => store.choices.lookup i) ep.choice_ids
        else ([], [])
      let chV := if ep.choice_ids ≠ [] then
          (if chR.2 ≠ [] then _as_missing_violations chR.2 ctx
           else validate_choices chR.1 recs_by_id opts_by_id)
        else []
      -- v0.5.2 outcome invariants
      let has_rec := ep.recommendation_ids ≠ []
      let outV1 := require_outcome_exists_if_episode_acted ep.episode_id acted has_rec
        ep.outcome_ids
      let outR := if ep.outcome_ids ≠ [] then
          resolve_many "Outcome" (fun i => store.outcomes.lookup i) ep.outcome_ids
        else ([], [])
      let outcomes_by_id := if ep.outcome_ids ≠ [] ∧ outR.2 = [] then
          outR.1.map (fun o => (o.outcome_id, o))
        else []
      let outV2 := if ep.outcome_ids ≠ [] then
          (if outR.2 ≠ [] then _as_missing_violations outR.2 ctx
           else validate_outcomes outR.1 recs_by_id opts_by_id)
        else []
      -- v0.5.2 review invariants
      let revV1 := require_review_exists_if_override_used ep.episode_id recs
        ep.review_ids
      let revR := if ep.review_ids ≠ [] then
          resolve_many "ReviewRecord" (fun i => store.reviews.lookup i) ep.review_ids
        else ([], [])
      let revV2 := if ep.review_ids ≠ [] ∧ revR.2 ≠ [] then
          _as_missing_violations revR.2 ctx
        else []
      let reviews_by_id := if ep.review_ids ≠ [] ∧ revR.2 = [] then
          revR.1.map (fun r => (r.review_id, r))
        else []
      let any_override_used := recs.any (·.override_used)
      let latest := ep.latest_review_id
      let auditPart :=
        match (if any_override_used then latest else none) with
        | none => ([], ([] : List ResolveError))
        | some lrid =>
          match reviews_by_id.lookup lrid with
          | some review =>
            (require_review_audits_overrides ep.episode_id recs review, [])
          | none =>
            let lateR := resolve_many "ReviewRecord"
              (fun i => store.reviews.lookup i) [lrid]
            if lateR.2 ≠ [] then (_as_missing_violations lateR.2 ctx, lateR.2)
            else
              match lateR.1 with
              | review :: _ =>
                (require_review_audits_overrides ep.episode_id recs review, [])
              | [] => ([], [])
      -- v0.5.2 calibration invariants
      let calR := if ep.calibration_ids ≠ [] then
          resolve_many "CalibrationNote" (fun i => store.calibrations.lookup i)
            ep.calibration_ids
        else ([], [])
      let calV := if ep.calibration_ids ≠ [] then
          (if calR.2 ≠ [] then _as_missing_violations calR.2 ctx
           else validate_calibrations calR.1 ep reviews_by_id outcomes_by_id)
        else []
      Except.ok
        { subject := "DecisionEpisode:" ++ episode_id
          violations := obsV ++ optV ++ recV ++ choiceV ++ chV ++ outV1 ++ outV2
            ++ revV1 ++ revV2 ++ auditPart.1 ++ calV
          resolve_errors := obsR.2 ++ optR.2 ++ recE ++ chR.2 ++ outR.2 ++ revR.2
            ++ auditPart.2 ++ calR.2 }

end Validate

-- Claim-side and concrete-input definitions used by the theorems below.

/-- The allowed-set table exactly as the specification words it (written
from the spec, not the source, for comparison with the two source gates):
riskiness HIGH allows only PROBE unless uncertainty is LOW (then all
three); riskiness MED allows {PROBE, LIMITED} unless uncertainty is HIGH
(then PROBE only); riskiness LOW always allows all three. -/
def claimedAllowedSet (risk : Rules.Riskiness) (unc : Rules.UncertaintyLevel) :
    Finset Rules.ActionClass :=
  match risk with
  | Rules.Riskiness.HIGH =>
    if unc = Rules.UncertaintyLevel.LOW then
      {Rules.ActionClass.PROBE, Rules.ActionClass.LIMITED, Rules.ActionClass.COMMIT}
    else {Rules.ActionClass.PROBE}
  | Rules.Riskiness.MED =>
    if unc = Rules.UncertaintyLevel.HIGH then {Rules.ActionClass.PROBE}
    else {Rules.ActionClass.PROBE, Rules.ActionClass.LIMITED}
  | Rules.Riskiness.LOW =>
    {Rules.ActionClass.PROBE, Rules.ActionClass.LIMITED, Rules.ActionClass.COMMIT}
/-- Band order LOW ≤ MED ≤ HIGH on the `rules.py` impact bands ("raising
the impact band" in the claim's words). -/
def impactBandLe : Rules.ImpactLevel → Rules.ImpactLevel → Bool
  | Rules.ImpactLevel.LOW, _ => true
  | Rules.ImpactLevel.MED, Rules.ImpactLevel.LOW => false
  | Rules.ImpactLevel.MED, _ => true
  | Rules.ImpactLevel.HIGH, Rules.ImpactLevel.HIGH => true
  | Rules.ImpactLevel.HIGH, _ => false
/-- A governing orientation declaring extended permissions with scope
{A, B} and a present rationale (the claim's override-subset example). -/
def exemplarOrientation : SpecActionGating.Orientation :=
  { governance_mode := SpecActionGating.GovernanceMode.EXTENDED_ALLOWED
    risk_posture := SpecActionGating.RiskPosture.DEFAULT
    override_scope := some {"A", "B"}
    override_rationale := some "justified exception" }
/-- The claim's concrete scenario option: impact 0.9, reversibility 0.1,
uncertainty 0.9, declared action class COMMIT, one dependency. -/
def commitScenarioOption : SpecActionGating.Option :=
  { impact := mkRat 9 10
    reversibility := mkRat 1 10
    uncertainty := mkRat 9 10
    action_class := SpecActionGating.ActionClass.COMMIT
    dependencies := ["obs:1"] }
/-- Python's `list(range(1, N+1))` as integers: the ranks a well-formed
`Recommendation` of `N` ranked options must carry. -/
def rangeRanks (n : Nat) : List ℤ :=
  (List.range' 1 n).map (Int.ofNat ·)
/-- A well-formed single-option recommendation used as the witness input. -/
def singleRankRecommendation : Models.Recommendation :=
  { recommendation_id := "rec_w", orientation_id := "ori_w",
    ranked_options := [⟨"o1", 1, mkRat 1 2, ""⟩] }
/-- A recommendation invoking the thin-slice gate bypass. -/
def bypassRecommendation : Models.Recommendation :=
  { recommendation_id := "rec_b", orientation_id := "ori_b",
    ranked_options := [⟨"o1", 1, mkRat 1 2, ""⟩],
    override_used := true, override_scope_used := ["ALLOW_GATE_BYPASS"] }
/-- An EXECUTE option declaring COMMIT that the v0.5.1 gate blocks
(impact 0.9, reversibility 0.1, uncertainty 0.9). -/
def riskyCommitOption : Models.Option :=
  { option_id := "o1", kind := Models.OptionKind.EXECUTE,
    action_class := some "commit",
    impact := ⟨mkRat 9 10⟩, reversibility := ⟨mkRat 1 10⟩,
    uncertainties := [⟨"high", mkRat 9 10⟩] }
/-- An acted episode with no choices that references a recommendation id
absent from the store. -/
def choicelessEpisode : Models.DecisionEpisode :=
  { episode_id := "ep_c", recommendation_ids := ["rec_missing"],
    acted := true, choice_ids := [] }
/-- A store holding only `choicelessEpisode`. -/
def choicelessStore : RuntimeStore.Store :=
  { episodes := [("ep_c", choicelessEpisode)] }
/-- An acted, choice-free episode with no recommendations, stored alone. -/
def actedEpisodeNoChoices : Models.DecisionEpisode :=
  { episode_id := "ep_w", acted := true, choice_ids := [] }
/-- The store holding only `actedEpisodeNoChoices`. -/
def actedEpisodeStore : RuntimeStore.Store :=
  { episodes := [("ep_w", actedEpisodeNoChoices)] }


/-- C1 counterexample: the claim's table fails on the
`spec_action_gating.py` gate at riskiness HIGH with uncertainty LOW —
that gate returns {PROBE, LIMITED}, not all three of
{PROBE, LIMITED, COMMIT}. -/
theorem gating_allowed_set_high_risk_low_uncertainty_omits_commit :
    SpecActionGating.allowed_action_classes SpecActionGating.Level3.HIGH
        SpecActionGating.Level3.LOW SpecActionGating.RiskPosture.DEFAULT ≠
      {SpecActionGating.ActionClass.PROBE, SpecActionGating.ActionClass.LIMITED,
       SpecActionGating.ActionClass.COMMIT} := by
  decide

/-- C1 (amended): the `rules.py` gate `allowed_action_classes` realises
the claimed table exactly, for every impact/reversibility band and every
uncertainty band LOW/MED/HIGH (the extra UNKNOWN uncertainty level of
`rules.py` behaves like HIGH and is outside the claim's bands). -/
theorem rules_allowed_set_matches_claimed_table :
    ∀ (imp : Rules.ImpactLevel) (rev : Rules.ReversibilityLevel)
      (unc : Rules.UncertaintyLevel), unc ≠ Rules.UncertaintyLevel.UNKNOWN →
      Rules.allowed_action_classes imp rev unc =
        claimedAllowedSet (Rules.compute_riskiness imp rev) unc := by
  decide

/-- Witness for `rules_allowed_set_matches_claimed_table` at a concrete
input (impact HIGH, reversibility MED, uncertainty LOW). -/
theorem rules_allowed_set_matches_claimed_table_witness :
    Rules.UncertaintyLevel.LOW ≠ Rules.UncertaintyLevel.UNKNOWN ∧
      Rules.allowed_action_classes Rules.ImpactLevel.HIGH
          Rules.ReversibilityLevel.MED Rules.UncertaintyLevel.LOW =
        claimedAllowedSet
          (Rules.compute_riskiness Rules.ImpactLevel.HIGH Rules.ReversibilityLevel.MED)
          Rules.UncertaintyLevel.LOW :=
  ⟨by decide, rules_allowed_set_matches_claimed_table Rules.ImpactLevel.HIGH
    Rules.ReversibilityLevel.MED Rules.UncertaintyLevel.LOW (by decide)⟩


/-- C2 counterexample: the `rules.py` gate is *not* impact-antitone: at
reversibility MED and uncertainty LOW, raising impact from MED to HIGH
grows the allowed set from {PROBE, LIMITED} to all three (the allowed
set at the higher impact band is not a subset of the one at the lower
band). -/
theorem rules_gate_not_impact_antitone_at_low_uncertainty :
    ¬ (Rules.allowed_action_classes Rules.ImpactLevel.HIGH
         Rules.ReversibilityLevel.MED Rules.UncertaintyLevel.LOW ⊆
       Rules.allowed_action_classes Rules.ImpactLevel.MED
         Rules.ReversibilityLevel.MED Rules.UncertaintyLevel.LOW) := by
  decide

/-- C2 (amended): (a) the `spec_action_gating.py` chain (riskiness via
`derived_riskiness`, allowed set via its `allowed_action_classes`, any
posture) is impact-antitone at every adjacent band step; (b) the
`rules.py` chain is impact-antitone whenever the uncertainty band is not
LOW — the violated cases are exactly uncertainty LOW with riskiness
crossing MED→HIGH, as in the counterexample. -/
theorem gate_impact_monotonicity_amended :
    (∀ (rev unc : SpecActionGating.Level3) (posture : SpecActionGating.RiskPosture),
      SpecActionGating.allowed_action_classes
          (SpecActionGating.derived_riskiness SpecActionGating.Level3.MED rev) unc posture ⊆
        SpecActionGating.allowed_action_classes
          (SpecActionGating.derived_riskiness SpecActionGating.Level3.LOW rev) unc posture ∧
      SpecActionGating.allowed_action_classes
          (SpecActionGating.derived_riskiness SpecActionGating.Level3.HIGH rev) unc posture ⊆
        SpecActionGating.allowed_action_classes
          (SpecActionGating.derived_riskiness SpecActionGating.Level3.MED rev) unc posture)
    ∧ (∀ (imp imp' : Rules.ImpactLevel) (rev : Rules.ReversibilityLevel)
        (unc : Rules.UncertaintyLevel), impactBandLe imp imp' = true →
        unc ≠ Rules.UncertaintyLevel.LOW →
        Rules.allowed_action_classes imp' rev unc ⊆
          Rules.allowed_action_classes imp rev unc) := by
  constructor
  · decide
  · decide

/-- Witness for `gate_impact_monotonicity_amended` at a concrete input
(impact LOW→HIGH, reversibility MED, uncertainty MED). -/
theorem gate_impact_monotonicity_amended_witness :
    impactBandLe Rules.ImpactLevel.LOW Rules.ImpactLevel.HIGH = true ∧
    Rules.UncertaintyLevel.MED ≠ Rules.UncertaintyLevel.LOW ∧
    Rules.allowed_action_classes Rules.ImpactLevel.HIGH Rules.ReversibilityLevel.MED
        Rules.UncertaintyLevel.MED ⊆
      Rules.allowed_action_classes Rules.ImpactLevel.LOW Rules.ReversibilityLevel.MED
        Rules.UncertaintyLevel.MED :=
  ⟨by decide, by decide,
    gate_impact_monotonicity_amended.2 Rules.ImpactLevel.LOW Rules.ImpactLevel.HIGH
      Rules.ReversibilityLevel.MED Rules.UncertaintyLevel.MED (by decide) (by decide)⟩

/-- C6: `resolve_many` never fails: for every artifact class name, every
lookup function and every id list it returns exactly the found artifacts
in input order together with one `ResolveError` carrying the class name
and the missing id for each id the lookup misses. -/
theorem resolve_many_collects_misses {α : Type} (typeName : String)
    (get : String → Optional α) (ids : List String) :
    RuntimeStore.resolve_many typeName get ids =
      (ids.filterMap get,
       (ids.filter (fun i => (get i).isNone)).map
         (fun i => RuntimeStore.ResolveError.mk typeName i "not found")) := by
  induction ids with
  | nil => rfl
  | cons x xs ih =>
    cases hx : get x <;>
      simp [RuntimeStore.resolve_many, hx, ih, List.filterMap_cons, List.filter_cons]


/-- C7: `override_is_valid` returns true exactly when the orientation's
governance mode is the extended-permission mode, its declared override
scope is non-empty, its override rationale is non-empty after stripping
whitespace, and the requested scope is a non-empty subset of the declared
scope; with declared scope {A, B} and a rationale present, scope {A}
validates while {C} and the empty scope do not. -/
theorem override_is_valid_spec :
    (∀ (ori : SpecActionGating.Orientation) (su : Optional (Finset String)),
      (SpecActionGating.override_is_valid ori su).1 = true ↔
        (ori.governance_mode = SpecActionGating.GovernanceMode.EXTENDED_ALLOWED
         ∧ ori.override_scope ≠ none ∧ ori.override_scope ≠ some ∅
         ∧ pyStrip (ori.override_rationale.getD "") ≠ ""
         ∧ su ≠ none ∧ su ≠ some ∅
         ∧ su.getD ∅ ⊆ ori.override_scope.getD ∅))
    ∧ (SpecActionGating.override_is_valid exemplarOrientation (some {"A"})).1 = true
    ∧ (SpecActionGating.override_is_valid exemplarOrientation (some {"C"})).1 = false
    ∧ (SpecActionGating.override_is_valid exemplarOrientation (some ∅)).1 = false := by
  refine ⟨fun ori su => ?_, by decide, by decide, by decide⟩
  unfold SpecActionGating.override_is_valid
  split_ifs with h1 h2 h3 h4 h5 <;> simp_all <;> tauto

/-- C3: for every option with a non-empty dependencies tuple, every
orientation and every requested override scope, `evaluate_option_legality`
returns a triple in which `requires_override` is true exactly when the
declared action class is outside the allowed set computed from the banded
impact, reversibility and uncertainty, and `allowed` is true exactly when
the action class is in that set or a structurally valid override exists. -/
theorem evaluate_option_legality_spec :
    ∀ (opt : SpecActionGating.Option) (ori : SpecActionGating.Orientation)
      (su : Optional (Finset String)), opt.dependencies ≠ [] →
      ((SpecActionGating.evaluate_option_legality opt ori su).2.1 = true ↔
        opt.action_class ∉ SpecActionGating.allowed_action_classes
          (SpecActionGating.derived_riskiness
            (SpecActionGating.impact_level opt.impact)
            (SpecActionGating.reversibility_level opt.reversibility))
          (SpecActionGating.uncertainty_level opt.uncertainty) ori.risk_posture)
      ∧ ((SpecActionGating.evaluate_option_legality opt ori su).1 = true ↔
        (opt.action_class ∈ SpecActionGating.allowed_action_classes
          (SpecActionGating.derived_riskiness
            (SpecActionGating.impact_level opt.impact)
            (SpecActionGating.reversibility_level opt.reversibility))
          (SpecActionGating.uncertainty_level opt.uncertainty) ori.risk_posture
         ∨ (SpecActionGating.override_is_valid ori su).1 = true)) := by
  intro opt ori su h
  unfold SpecActionGating.evaluate_option_legality
  simp only [if_neg h]
  split_ifs with hm hv <;> simp_all


/-- Witness for `evaluate_option_legality_spec` at the claim's scenario
(impact 0.9, reversibility 0.1, uncertainty 0.9, COMMIT, advisory-only
orientation so no valid override): the verdict is `(false, true, …)`. -/
theorem evaluate_option_legality_spec_witness :
    commitScenarioOption.dependencies ≠ [] ∧
    (((SpecActionGating.evaluate_option_legality commitScenarioOption {} none).2.1 = true ↔
        commitScenarioOption.action_class ∉ SpecActionGating.allowed_action_classes
          (SpecActionGating.derived_riskiness
            (SpecActionGating.impact_level commitScenarioOption.impact)
            (SpecActionGating.reversibility_level commitScenarioOption.reversibility))
          (SpecActionGating.uncertainty_level commitScenarioOption.uncertainty)
          SpecActionGating.RiskPosture.DEFAULT)
      ∧ ((SpecActionGating.evaluate_option_legality commitScenarioOption {} none).1 = true ↔
        (commitScenarioOption.action_class ∈ SpecActionGating.allowed_action_classes
          (SpecActionGating.derived_riskiness
            (SpecActionGating.impact_level commitScenarioOption.impact)
            (SpecActionGating.reversibility_level commitScenarioOption.reversibility))
          (SpecActionGating.uncertainty_level commitScenarioOption.uncertainty)
          SpecActionGating.RiskPosture.DEFAULT
         ∨ (SpecActionGating.override_is_valid {} none).1 = true))) ∧
    (SpecActionGating.evaluate_option_legality commitScenarioOption {} none).1 = false ∧
    (SpecActionGating.evaluate_option_legality commitScenarioOption {} none).2.1 = true :=
  ⟨by decide, evaluate_option_legality_spec commitScenarioOption {} none (by decide),
   by decide, by decide⟩


/-- A list whose insertion sort is `target` has the same multiset of
elements as `target`. -/
theorem multiset_eq_of_insertionSort_eq {l target : List ℤ}
    (h : l.insertionSort (· ≤ ·) = target) :
    Multiset.ofList l = Multiset.ofList target := by
  rw [← h]
  exact (Multiset.coe_eq_coe.mpr (List.perm_insertionSort _ l)).symm

/-- A rank list accepted by `_validate_contiguous_ranks` is, as a
multiset, exactly `{1..N}`. -/
theorem validate_contiguous_ranks_ok_multiset (ros : List Models.RankedOption)
    (h : Models._validate_contiguous_ranks ros = Except.ok ()) :
    Multiset.ofList (ros.map (·.rank)) = Multiset.ofList (rangeRanks ros.length) := by
  unfold Models._validate_contiguous_ranks at h
  dsimp only at h
  split_ifs at h with h1 h2 h3
  · have hlen : ros.length = 0 := by
      have := congrArg List.length h1
      simpa using this
    rw [h1, hlen]
    rfl
  · have heq : (ros.map (·.rank)).insertionSort (· ≤ ·) =
        (List.range' 1 (ros.map (·.rank)).length).map (Int.ofNat ·) :=
      not_not.mp h2
    have := multiset_eq_of_insertionSort_eq heq
    simpa [rangeRanks, List.length_map] using this

/-- Inversion of a successful `mkRecommendation`. -/
theorem mkRecommendation_ok_inv {rec r : Models.Recommendation}
    (h : Models.mkRecommendation rec = Except.ok r) :
    r = rec ∧ Models._validate_contiguous_ranks rec.ranked_options = Except.ok () := by
  unfold Models.mkRecommendation at h
  split_ifs at h with h1
  cases hv : Models._validate_contiguous_ranks rec.ranked_options with
  | error m => rw [hv] at h; cases h
  | ok u =>
    cases u
    rw [hv] at h
    injection h with h2
    subst h2
    exact ⟨rfl, rfl⟩

/-- Inversion of a successful `Recommendation.add_ranked_options`. -/
theorem add_ranked_options_ok_inv {rec r : Models.Recommendation}
    {new : List Models.RankedOption}
    (h : Models.Recommendation.add_ranked_options rec new = Except.ok r) :
    r.ranked_options = rec.ranked_options ++ new ∧
      Models._validate_contiguous_ranks (rec.ranked_options ++ new) = Except.ok () := by
  unfold Models.Recommendation.add_ranked_options at h
  dsimp only at h
  cases hv : Models._validate_contiguous_ranks (rec.ranked_options ++ new) with
  | error m => rw [hv] at h; cases h
  | ok u =>
    cases u
    rw [hv] at h
    injection h with h2
    subst h2
    exact ⟨rfl, rfl⟩

/-- C8: constructing a `Recommendation` (or adding ranked options to one)
whose multiset of ranks is not exactly `{1..N}` fails with a construction
error — in particular ranks {1, 1, 3} fail — and consequently every
successfully constructed or extended `Recommendation` carries ranks whose
multiset is exactly `{1..N}` (distinct, contiguous, starting at 1). -/
theorem recommendation_rank_contiguity :
    (∀ rec : Models.Recommendation,
      Multiset.ofList (rec.ranked_options.map (·.rank)) ≠
        Multiset.ofList (rangeRanks rec.ranked_options.length) →
      ∃ m, Models.mkRecommendation rec = Except.error m)
    ∧ (∀ rec r : Models.Recommendation, Models.mkRecommendation rec = Except.ok r →
        Multiset.ofList (r.ranked_options.map (·.rank)) =
          Multiset.ofList (rangeRanks r.ranked_options.length))
    ∧ (∀ (rec : Models.Recommendation) (new : List Models.RankedOption)
        (r : Models.Recommendation),
        Models.Recommendation.add_ranked_options rec new = Except.ok r →
        Multiset.ofList (r.ranked_options.map (·.rank)) =
          Multiset.ofList (rangeRanks r.ranked_options.length))
    ∧ (∃ m, Models.mkRecommendation
        { recommendation_id := "rec_x", orientation_id := "ori_x",
          ranked_options := [⟨"o1", 1, mkRat 1 2, ""⟩, ⟨"o2", 1, mkRat 1 2, ""⟩,
            ⟨"o3", 3, mkRat 1 2, ""⟩] } = Except.error m) := by
  refine ⟨?_, ?_, ?_, ?_⟩
  · intro rec hne
    cases hmk : Models.mkRecommendation rec with
    | error m => exact ⟨m, rfl⟩
    | ok r =>
      exact absurd (validate_contiguous_ranks_ok_multiset rec.ranked_options
        (mkRecommendation_ok_inv hmk).2) hne
  · intro rec r hmk
    obtain ⟨hr, hv⟩ := mkRecommendation_ok_inv hmk
    rw [hr]
    exact validate_contiguous_ranks_ok_multiset rec.ranked_options hv
  · intro rec new r hadd
    obtain ⟨hr, hv⟩ := add_ranked_options_ok_inv hadd
    have := validate_contiguous_ranks_ok_multiset (rec.ranked_options ++ new) hv
    rw [hr]
    exact this
  · exact ⟨"RankedOption.rank must be contiguous starting at 1", by decide⟩


/-- Witness for `recommendation_rank_contiguity` at a concrete successful
construction (a single ranked option of rank 1). -/
theorem recommendation_rank_contiguity_witness :
    Models.mkRecommendation singleRankRecommendation =
      Except.ok singleRankRecommendation ∧
    Multiset.ofList (singleRankRecommendation.ranked_options.map (·.rank)) =
      Multiset.ofList (rangeRanks singleRankRecommendation.ranked_options.length) :=
  ⟨by decide, recommendation_rank_contiguity.2.1 singleRankRecommendation
    singleRankRecommendation (by decide)⟩

/-- C9 (amended): once an episode is *acted* with a chosen option set,
`mark_acted` with a different non-empty chosen option raises instead of
overwriting.  (The refusal in the source requires `self.acted`; with
`acted=False` a set `chosen_option_id` is silently overwritten — see the
counterexample.) -/
theorem mark_acted_refuses_change_when_acted
    (ep : Models.DecisionEpisode) (c s : String) (t : Optional Nat) (now : Nat) :
    ep.acted = true → ep.chosen_option_id = some c → c ≠ "" → s ≠ "" → s ≠ c →
    Models.DecisionEpisode.mark_acted ep (some s) t now =
      Except.error ("Episode already acted on " ++ c ++ "; cannot change to "
        ++ s ++ ".") := by
  intro hacted hc hcne hsne hne
  unfold Models.DecisionEpisode.mark_acted
  rw [hc]
  simp [optStrTruthy, hacted, hsne, hcne, Ne.symm hne]

/-- C9 counterexample: an episode whose `chosen_option_id` is set but
which is not yet acted gets its chosen option silently overwritten by
`mark_acted` with a different id — no error is raised. -/
theorem mark_acted_overwrites_when_not_acted :
    Models.DecisionEpisode.mark_acted
        { episode_id := "ep_1", acted := false, chosen_option_id := some "opt_a" }
        (some "opt_b") none 0 =
      Except.ok { episode_id := "ep_1", acted := true,
                  chosen_option_id := some "opt_b", acted_at := some 0 } := by
  decide

/-- Witness for `mark_acted_refuses_change_when_acted` at a concrete
already-acted episode. -/
theorem mark_acted_refuses_change_when_acted_witness :
    ({ episode_id := "ep_2", acted := true, chosen_option_id := some "opt_a" } :
      Models.DecisionEpisode).acted = true ∧
    ({ episode_id := "ep_2", acted := true, chosen_option_id := some "opt_a" } :
      Models.DecisionEpisode).chosen_option_id = some "opt_a" ∧
    "opt_a" ≠ "" ∧ "opt_b" ≠ "" ∧ "opt_b" ≠ "opt_a" ∧
    Models.DecisionEpisode.mark_acted
        { episode_id := "ep_2", acted := true, chosen_option_id := some "opt_a" }
        (some "opt_b") none 0 =
      Except.error ("Episode already acted on " ++ "opt_a" ++ "; cannot change to "
        ++ "opt_b" ++ ".") :=
  ⟨rfl, rfl, by decide, by decide, by decide,
    mark_acted_refuses_change_when_acted
      { episode_id := "ep_2", acted := true, chosen_option_id := some "opt_a" }
      "opt_a" "opt_b" none 0 rfl rfl (by decide) (by decide) (by decide)⟩

/-- `require_action_class_declared` only ever emits INV-ACT-001. -/
theorem require_action_class_declared_rule (opt : Models.Option) :
    ∀ v ∈ Rules.require_action_class_declared opt, v.rule = "INV-ACT-001" := by
  intro v hv
  unfold Rules.require_action_class_declared at hv
  cases hac : opt.action_class with
  | none => rw [hac] at hv; simp_all
  | some ac =>
    rw [hac] at hv
    dsimp only at hv
    split_ifs at hv <;> simp_all

/-- With the bypass flag set, the per-option v0.5.1 gate body emits no
INV-ACT-002 violation. -/
theorem v051_option_bypass_no_gate_violation
    (options_by_id : List (String × Models.Option)) (ro : Models.RankedOption) :
    ∀ v ∈ Rules._v051_option_violations true options_by_id ro,
      v.rule ≠ "INV-ACT-002" := by
  intro v hv
  unfold Rules._v051_option_violations at hv
  cases hopt : options_by_id.lookup ro.option_id with
  | none => rw [hopt] at hv; simp at hv
  | some opt =>
    rw [hopt] at hv
    dsimp only at hv
    by_cases hk : opt.kind = Models.OptionKind.EXECUTE
    · rw [if_neg (by simp [hk])] at hv
      rw [List.mem_append] at hv
      rcases hv with hv | hv
      · rw [require_action_class_declared_rule opt v hv]
        decide
      · cases hco : Rules._coerce_action_class opt with
        | none => rw [hco] at hv; simp at hv
        | some ac =>
          rw [hco] at hv
          dsimp only at hv
          split_ifs at hv <;> simp_all
    · rw [if_pos hk] at hv
      simp at hv

/-- C10: for every recommendation with `override_used=true` and the
literal scope item "ALLOW_GATE_BYPASS" in its own `override_scope_used`,
`require_proportionate_action_v051` emits no INV-ACT-002 gate violation
for any option, whatever the gate computes; the bypass is decided from
the recommendation's own override fields alone (the function takes no
orientation at all). -/
theorem proportionate_action_gate_bypass
    (rc : Models.Recommendation) (options_by_id : List (String × Models.Option)) :
    rc.override_used = true → "ALLOW_GATE_BYPASS" ∈ rc.override_scope_used →
    ∀ v ∈ Rules.require_proportionate_action_v051 rc options_by_id,
      v.rule ≠ "INV-ACT-002" := by
  intro hou hsc v hv
  unfold Rules.require_proportionate_action_v051 at hv
  dsimp only at hv
  have hgb : decide (rc.override_used = true ∧
      "ALLOW_GATE_BYPASS" ∈ rc.override_scope_used) = true :=
    decide_eq_true ⟨hou, hsc⟩
  rw [hgb] at hv
  rw [List.mem_flatten] at hv
  obtain ⟨l, hl, hvl⟩ := hv
  rw [List.mem_map] at hl
  obtain ⟨ro, _, hro⟩ := hl
  exact v051_option_bypass_no_gate_violation options_by_id ro v (hro ▸ hvl)



/-- Witness for `proportionate_action_gate_bypass` at a concrete
recommendation whose gate-blocked COMMIT option draws no INV-ACT-002. -/
theorem proportionate_action_gate_bypass_witness :
    bypassRecommendation.override_used = true ∧
    "ALLOW_GATE_BYPASS" ∈ bypassRecommendation.override_scope_used ∧
    (∀ v ∈ Rules.require_proportionate_action_v051 bypassRecommendation
        [("o1", riskyCommitOption)], v.rule ≠ "INV-ACT-002") :=
  ⟨rfl, by decide, proportionate_action_gate_bypass bypassRecommendation
    [("o1", riskyCommitOption)] rfl (by decide)⟩

/-- C4: `validate_episode` on an id absent from the store *raises*
(models CPython's `TypeError` at the `except ResolveError` clause, which
names a non-exception class while `must_get` raises `KeyError`) instead
of returning a `ValidationReport` carrying a `ResolveError`. -/
theorem validate_episode_raises_on_missing_episode
    (store : RuntimeStore.Store) (episode_id : String) :
    store.get_episode episode_id = none →
    Validate.validate_episode store episode_id =
      Except.error (RuntimeStore.PyExc.typeError
        RuntimeStore.catchNonExceptionClassMsg) := by
  intro h
  have h1 : RuntimeStore.tryExceptResolveError (store.must_get_episode episode_id) =
      Except.error (RuntimeStore.PyExc.typeError
        RuntimeStore.catchNonExceptionClassMsg) := by
    unfold RuntimeStore.Store.must_get_episode RuntimeStore.tryExceptResolveError
    rw [h]
  unfold Validate.validate_episode
  rw [h1]

/-- Witness for `validate_episode_raises_on_missing_episode` on the empty
store. -/
theorem validate_episode_raises_on_missing_episode_witness :
    RuntimeStore.Store.empty.get_episode "ep_missing" = none ∧
    Validate.validate_episode RuntimeStore.Store.empty "ep_missing" =
      Except.error (RuntimeStore.PyExc.typeError
        RuntimeStore.catchNonExceptionClassMsg) :=
  ⟨rfl, validate_episode_raises_on_missing_episode RuntimeStore.Store.empty
    "ep_missing" rfl⟩

/-- A resolvable recommendation makes the store-based
`validate_recommendation` return a report, never an exception. -/
theorem validate_recommendation_ok (store : RuntimeStore.Store) (rid : String)
    (rec : Models.Recommendation) (h : store.get_recommendation rid = some rec) :
    ∃ rep, Validate.validate_recommendation store rid = Except.ok rep := by
  unfold Validate.validate_recommendation RuntimeStore.Store.must_get_recommendation
    RuntimeStore.tryExceptResolveError
  rw [h]
  exact ⟨_, rfl⟩

/-- When every listed recommendation id resolves, the recommendations
loop of `validate_episode` completes without raising. -/
theorem recommendations_loop_ok (store : RuntimeStore.Store) (ids : List String)
    (h : ∀ rid ∈ ids, (store.get_recommendation rid).isSome) :
    ∃ t, Validate._recommendations_loop store ids = Except.ok t := by
  induction ids with
  | nil => exact ⟨_, rfl⟩
  | cons rid rest ih =>
    obtain ⟨rec, hrec⟩ : ∃ rec, store.get_recommendation rid = some rec := by
      cases hg : store.get_recommendation rid with
      | none => have := h rid (by simp); rw [hg] at this; cases this
      | some rec => exact ⟨rec, rfl⟩
    obtain ⟨rep, hrep⟩ := validate_recommendation_ok store rid rec hrec
    obtain ⟨t, ht⟩ := ih (fun r hr => h r (by simp [hr]))
    have h1 : RuntimeStore.tryExceptResolveError (store.must_get_recommendation rid) =
        Except.ok rec := by
      unfold RuntimeStore.Store.must_get_recommendation RuntimeStore.tryExceptResolveError
      rw [hrec]
    obtain ⟨vs, res, recs, by_id⟩ := t
    refine ⟨(rep.violations ++ vs, rep.resolve_errors ++ res, rec :: recs,
      (rec.recommendation_id, rec) :: by_id), ?_⟩
    unfold Validate._recommendations_loop
    simp only [h1, hrep, ht]

/-- C5 (amended): for every stored episode with `acted=true` and empty
`choice_ids` *whose listed recommendation ids all resolve*,
`validate_episode` returns a report containing the INV-CHO-001 violation
(acted implies at least one Choice record).  The resolvability proviso is
forced by the `must_get` slip shown in the counterexample: one missing
recommendation id makes `validate_episode` raise instead. -/
theorem validate_episode_reports_missing_choice
    (store : RuntimeStore.Store) (episode_id : String)
    (ep : Models.DecisionEpisode) :
    store.get_episode episode_id = some ep →
    ep.acted = true → ep.choice_ids = [] →
    (∀ rid ∈ ep.recommendation_ids, (store.get_recommendation rid).isSome) →
    ∃ report, Validate.validate_episode store episode_id = Except.ok report ∧
      ∃ v ∈ report.violations, v.rule = "INV-CHO-001" := by
  intro hget hacted hch hrecs
  have h1 : RuntimeStore.tryExceptResolveError (store.must_get_episode episode_id) =
      Except.ok ep := by
    unfold RuntimeStore.Store.must_get_episode RuntimeStore.tryExceptResolveError
    rw [hget]
  obtain ⟨⟨recV, recE, recs, recs_by_id⟩, hloop⟩ :=
    recommendations_loop_ok store ep.recommendation_ids hrecs
  have hchoice : Rules.require_choice_exists_if_episode_acted ep.episode_id
      (Validate._episode_acted ep) ep.choice_ids =
      [⟨"INV-CHO-001", "DecisionEpisode " ++ ep.episode_id
        ++ " is marked acted=true but has no choice_ids (acting requires a Choice)."⟩] := by
    unfold Rules.require_choice_exists_if_episode_acted Validate._episode_acted
    simp [hacted, hch]
  unfold Validate.validate_episode
  simp only [h1, hloop]
  refine ⟨_, rfl, ?_⟩
  refine ⟨⟨"INV-CHO-001", "DecisionEpisode " ++ ep.episode_id
    ++ " is marked acted=true but has no choice_ids (acting requires a Choice)."⟩,
    ?_, rfl⟩
  simp [List.mem_append, hchoice]



/-- C5 counterexample: a stored episode with `acted=true` and empty
`choice_ids` for which `validate_episode` produces *no* report at all —
its single recommendation id does not resolve, so the `must_get` inside
the recommendations loop raises (through the uncatchable
`except ResolveError`) before the choice invariant is ever evaluated. -/
theorem validate_episode_missing_choice_counterexample :
    choicelessEpisode.acted = true ∧ choicelessEpisode.choice_ids = [] ∧
    choicelessStore.get_episode "ep_c" = some choicelessEpisode ∧
    Validate.validate_episode choicelessStore "ep_c" =
      Except.error (RuntimeStore.PyExc.typeError
        RuntimeStore.catchNonExceptionClassMsg) := by
  refine ⟨rfl, rfl, rfl, ?_⟩
  rfl



/-- Witness for `validate_episode_reports_missing_choice` at a concrete
store: the report exists and carries INV-CHO-001. -/
theorem validate_episode_reports_missing_choice_witness :
    actedEpisodeStore.get_episode "ep_w" = some actedEpisodeNoChoices ∧
    actedEpisodeNoChoices.acted = true ∧
    actedEpisodeNoChoices.choice_ids = [] ∧
    (∀ rid ∈ actedEpisodeNoChoices.recommendation_ids,
      (actedEpisodeStore.get_recommendation rid).isSome) ∧
    (∃ report, Validate.validate_episode actedEpisodeStore "ep_w" = Except.ok report ∧
      ∃ v ∈ report.violations, v.rule = "INV-CHO-001") :=
  ⟨rfl, rfl, rfl, by simp [actedEpisodeNoChoices],
    validate_episode_reports_missing_choice actedEpisodeStore "ep_w"
      actedEpisodeNoChoices rfl rfl rfl (by simp [actedEpisodeNoChoices])⟩
